import Mathlib

/-!
Verification of the EPIC dashboard filtering and rendering logic
(`src/app.py`, function `main`).

The app loads building records from a SQLite table, coerces columns
(`tUNITS` to float, `vacant` to bool, `zipcode_str` to str, `x`/`y` to
float), filters the rows by four conjoined predicates (lines 72-81),
draws two frequency distributions from the filtered rows, and renders a
capped map sample (lines 123-127).

Modelling notes.
* A pandas DataFrame of building rows is a `List Record`; boolean-mask
  selection `data[mask]` is `List.filter`, which keeps exactly the rows
  whose mask is true, in order, without touching `data`.
* Python floats in the relevant columns are modelled as rationals: every
  finite float is a rational, and the order and equality tests the code
  performs on them agree with the rational ones.
* `pandas.Series.str.contains(pat)` defaults to `regex=True`: the
  parameter is compiled with `re.compile` — raising `re.error` for an
  invalid pattern before any row is tested, even on an empty frame,
  and regardless of the other conjuncts since `&` evaluates its
  operands eagerly — and matched per row with `re.search`.  Python
  `re` is an external library; the embedding is explicit about how
  much of it is modelled: `reCompile` implements full Python semantics
  on patterns built from literal characters and the metacharacter `.`
  (which matches any character except a newline), certifies the
  documented `re.error` for a pattern with an unterminated character
  set (a `[` with no `]` and no escape anywhere), and classifies every
  other pattern as unmodelled — no theorem asserts anything about the
  program there.
* Line 130 tests the token with Python truthiness (`if token:`), so an
  empty-string token falls back to the token-free tiles exactly like an
  absent one.
* `DataFrame.sample(n)` draws `n` rows without replacement; the random
  choice is made explicit as the list of chosen row positions, which the
  library guarantees to be `n` pairwise-distinct in-range positions.
-/

namespace EpicDashboard

/-- One building record, with the columns of `presampled_points` used by
`app.py` after coercion (line 29-36): `tUNITS : float`, `vacant : bool`,
`zipcode_str : str`, `building_type`, and coordinates `x`/`y` (copied to
`lon`/`lat`).  Floats are modelled as rationals. -/
structure Record where
  tUNITS : Rat
  vacant : Bool
  zipcode_str : String
  building_type : String
  x : Rat
  y : Rat
deriving DecidableEq, Repr

/-- The widget state read on lines 41-48 and 65-69 of `app.py`:
`selected_units` is the slider pair `(min, max)`, `selected_zipcode` the
free-text zipcode pattern, `selected_vacant` one of the strings `"All"`,
`"Vacant"`, `"Not Vacant"`, and `selected_building_types` the chosen
building-type values. -/
structure Params where
  selected_units : Rat × Rat
  selected_zipcode : String
  selected_vacant : String
  selected_building_types : List String
deriving Repr

/-- Anchored match of a Python regex pattern drawn from the modelled
fragment (literal characters and `.`) against the beginning of a
string: `.` matches any character except a newline (no `DOTALL` flag is
passed on line 76), every other fragment character matches only
itself.  `reCompile` guarantees this function is only ever applied to
patterns inside the fragment. -/
def reMatchHere : List Char → List Char → Bool
  | [], _ => true
  | _ :: _, [] => false
  | p :: ps, c :: cs =>
    (if p == '.' then !(c == '\n') else p == c) && reMatchHere ps cs

/-- `re.search(pat, s)` for a pattern of the modelled fragment: the
pattern may match at any start position. -/
def reSearch (pat : List Char) : List Char → Bool
  | [] => reMatchHere pat []
  | s@(_ :: cs) => reMatchHere pat s || reSearch pat cs

/-- Anchored literal match: `pat` is equal to the first `pat.length`
characters of the string, every character taken literally. -/
def litHere : List Char → List Char → Bool
  | [], _ => true
  | _ :: _, [] => false
  | p :: ps, c :: cs => (p == c) && litHere ps cs

/-- Modelled from the spec's words (section 4.2): "zipcode contains
zipcode_substring as a contiguous substring (empty substring always
matches)", case-sensitive and unanchored, every character literal.
Kept separate from `reSearch` so the two readings can be compared. -/
def containsSubstrSpec (pat : List Char) : List Char → Bool
  | [] => litHere pat []
  | s@(_ :: cs) => litHere pat s || containsSubstrSpec pat cs

/-- The special characters of Python regular expressions (from the
Python `re` documentation). -/
def reSpecials : List Char :=
  ['.', '^', '$', '*', '+', '?', '{', '}', '[', ']', '\\', '|', '(', ')']

/-- A pattern character the model implements fully: a non-special
character (matched literally) or the metacharacter `.`. -/
def isFragmentChar (c : Char) : Bool :=
  !(reSpecials.contains c) || c == '.'

/-- A pattern with no Python regex special character at all: `re`
matches it purely literally. -/
def literalPattern (pat : String) : Bool :=
  pat.data.all fun c => !(reSpecials.contains c)

/-- Outcome of `re.compile(selected_zipcode)` inside
`Series.str.contains` (line 76), as far as the model speaks:
`compiled m` — the pattern is inside the modelled fragment and `m z` is
the boolean `re.search` result on `z`; `invalid msg` — the pattern is
invalid per the `re` documentation and `re.error` is raised;
`unmodelled` — the pattern is outside the modelled fragment and the
model asserts nothing about the program on it. -/
inductive ReResult where
  | compiled (m : String → Bool)
  | invalid (msg : String)
  | unmodelled

/-- The modelled `re.compile`: full Python semantics on patterns of
literal characters and `.`; the documented `re.error` ("unterminated
character set") for a pattern containing `[` but neither `]` nor a
backslash that could neutralise it; `unmodelled` for every other
pattern. -/
def reCompile (pat : String) : ReResult :=
  if pat.data.all isFragmentChar then
    ReResult.compiled fun z => reSearch pat.data z.data
  else if pat.data.contains '[' && !pat.data.contains ']'
      && !pat.data.contains '\\' then
    ReResult.invalid "unterminated character set"
  else
    ReResult.unmodelled

/-- Line 73-74: `(data["tUNITS"] >= selected_units[0]) &
(data["tUNITS"] <= selected_units[1])`. -/
def unitsPred (p : Params) (r : Record) : Bool :=
  decide (p.selected_units.1 ≤ r.tUNITS) && decide (r.tUNITS ≤ p.selected_units.2)

/-- Line 75: `data["building_type"].isin(selected_building_types)`. -/
def typePred (p : Params) (r : Record) : Bool :=
  p.selected_building_types.contains r.building_type

/-- Line 76 per row, once the pattern has compiled to the matcher `m`:
`data["zipcode_str"].str.contains(selected_zipcode)` applies `m` to the
row's zipcode string. -/
def zipPred (m : String → Bool) (r : Record) : Bool :=
  m r.zipcode_str

/-- Lines 77-80: `(selected_vacant == "All") |
(data["vacant"] == (selected_vacant == "Vacant"))`. -/
def vacantPred (p : Params) (r : Record) : Bool :=
  (p.selected_vacant == "All") || (r.vacant == (p.selected_vacant == "Vacant"))

/-- The conjoined boolean mask of lines 72-81, for a compiled zipcode
matcher `m`. -/
def rowMask (m : String → Bool) (p : Params) (r : Record) : Bool :=
  unitsPred p r && typePred p r && zipPred m r && vacantPred p r

/-- `filtered = data[mask]` once the zipcode pattern has compiled: keep
exactly the rows whose mask is true. -/
def applyFiltersWith (m : String → Bool) (p : Params) (data : List Record) :
    List Record :=
  data.filter (rowMask m p)

/-- What lines 72-81 produce, as far as the model speaks: the row
subset, or the `re.error` raised while compiling the zipcode pattern
(the conjuncts of the mask are evaluated eagerly, so the error surfaces
regardless of the other predicates and of the frame's size), or
`unmodelled` when the pattern is outside the modelled regex
fragment. -/
inductive FilterResult where
  | ok (rows : List Record)
  | raises (msg : String)
  | unmodelled
deriving DecidableEq, Repr

/-- Lines 72-81: compile the zipcode parameter, then filter by the
conjoined mask. -/
def applyFilters (p : Params) (data : List Record) : FilterResult :=
  match reCompile p.selected_zipcode with
  | ReResult.compiled m => FilterResult.ok (applyFiltersWith m p data)
  | ReResult.invalid msg => FilterResult.raises msg
  | ReResult.unmodelled => FilterResult.unmodelled

/-- Distinct `tUNITS` values occurring in a row set (the index of
`value_counts()`). -/
def unitValues (filtered : List Record) : List Rat :=
  (filtered.map fun r => r.tUNITS).dedup

/-- Number of rows whose `tUNITS` equals `v` exactly (one entry of
`value_counts()`). -/
def countUnits (filtered : List Record) (v : Rat) : Nat :=
  (filtered.filter fun r => r.tUNITS == v).length

/-- Line 100: `filtered["tUNITS"].value_counts().sort_index()` — each
distinct exact `tUNITS` value paired with its frequency, listed in
ascending order of the value. -/
def unit_distribution (filtered : List Record) : List (Rat × Nat) :=
  (List.insertionSort (fun a b : Rat => a ≤ b) (unitValues filtered)).map
    fun v => (v, countUnits filtered v)

/-- `filtered.sample(1000)` (line 127) selects rows at library-chosen
positions; the positions are the explicit argument `idxs`, and
`DataFrame.sample` guarantees them to be `n` pairwise-distinct in-range
positions (sampling without replacement). -/
def sampleRows (df : List Record) (idxs : List Nat) : List Record :=
  idxs.filterMap fun i => df[i]?

/-- What the map section renders (lines 123-127): the
"Number of buildings" count text, whether the too-many warning is
shown, and the row set handed to the scatter plot. -/
structure MapView where
  count_text : Nat
  warned : Bool
  displayed : List Record
deriving Repr

/-- Lines 123-127: the count text is written from the pre-cap
`len(filtered)`; then, only when `len(filtered) > 1000`, a warning is
shown and the displayed set is replaced by `filtered.sample(1000)`. -/
def renderMap (filtered : List Record) (idxs : List Nat) : MapView :=
  if filtered.length > 1000 then
    { count_text := filtered.length, warned := true,
      displayed := sampleRows filtered idxs }
  else
    { count_text := filtered.length, warned := false, displayed := filtered }

/-- Lines 16-20 of `app.py`: if the file `.env` exists, the environment
is loaded from it and `token = os.environ["MAPBOX_TOKEN"]`, which raises
`KeyError` when the variable is absent; otherwise `token = None`.
`environ` is the process environment after `load_dotenv`. -/
def loadToken (dotenvExists : Bool) (environ : String → Option String) :
    Except String (Option String) :=
  if dotenvExists then
    match environ "MAPBOX_TOKEN" with
    | some t => Except.ok (some t)
    | none => Except.error "KeyError: MAPBOX_TOKEN"
  else
    Except.ok none

/-- Lines 130-133: the map style used by the scatter plot.  Line 130 is
`if token:` — Python truthiness — so both an absent token and an
empty-string token take the token-free `"open-street-map"` branch;
only a non-empty token selects `"basic"`. -/
def mapboxStyle : Option String → String
  | some t => if t.isEmpty then "open-street-map" else "basic"
  | none => "open-street-map"

/-- A concrete building record used to instantiate the theorems. -/
def recA : Record :=
  { tUNITS := 3, vacant := true, zipcode_str := "33620", building_type := "RES",
    x := 1, y := 2 }

/-- A concrete parameter set whose zipcode pattern has no regex
metacharacter. -/
def pZip : Params :=
  { selected_units := (0, 10), selected_zipcode := "336",
    selected_vacant := "All", selected_building_types := ["RES"] }

/-- A concrete parameter set with an empty building-type selection. -/
def pNoTypes : Params :=
  { selected_units := (0, 10), selected_zipcode := "",
    selected_vacant := "All", selected_building_types := [] }

/-- A concrete parameter set whose unit range has `recA.tUNITS` exactly
at the lower bound. -/
def pEdge : Params :=
  { selected_units := (3, 10), selected_zipcode := "",
    selected_vacant := "All", selected_building_types := ["RES"] }

/-- A concrete filtered row set larger than the display cap. -/
def dfBig : List Record := List.replicate 1001 recA

/-- A second concrete building record. -/
def recB : Record :=
  { tUNITS := 5, vacant := false, zipcode_str := "33647", building_type := "COM",
    x := 3, y := 4 }

/-- The matcher `reCompile` produces for the literal pattern `"336"`. -/
def mZip : String → Bool := fun z => reSearch "336".data z.data

/-- The matcher `reCompile` produces for the empty pattern. -/
def mEmpty : String → Bool := fun z => reSearch "".data z.data

/-- A concrete parameter set whose zipcode pattern `"["` is an invalid
regex: `re.compile` raises "unterminated character set". -/
def pBracket : Params :=
  { selected_units := (0, 10), selected_zipcode := "[",
    selected_vacant := "All", selected_building_types := ["RES"] }

/-- A concrete parameter set with an empty building-type selection AND
the invalid zipcode pattern `"["`. -/
def pNoTypesBracket : Params :=
  { selected_units := (0, 10), selected_zipcode := "[",
    selected_vacant := "All", selected_building_types := [] }

/-- A concrete parameter set whose zipcode pattern `"021."` is a valid
regex containing the metacharacter `.`. -/
def pDot : Params :=
  { selected_units := (0, 10), selected_zipcode := "021.",
    selected_vacant := "All", selected_building_types := ["A"] }

/-- A concrete record whose zipcode `"0219"` does not contain `"021."`
literally, yet matches it as a regex. -/
def recDot : Record :=
  { tUNITS := 2, vacant := false, zipcode_str := "0219", building_type := "A",
    x := 0, y := 0 }

/-! ### Helper lemmas -/

/-- The empty pattern matches every string under `re.search`. -/
theorem reSearch_nil (s : List Char) : reSearch [] s = true := by
  cases s <;> simp [reSearch, reMatchHere]

/-- On patterns without the `.` metacharacter, anchored regex matching
agrees with anchored literal matching. -/
theorem reMatchHere_no_meta : ∀ pat s : List Char,
    pat.all (fun c => !(c == '.')) = true → reMatchHere pat s = litHere pat s
  | [], s, _ => by cases s <;> rfl
  | _ :: _, [], _ => rfl
  | p :: ps, c :: cs, hm => by
    simp only [List.all_cons, Bool.and_eq_true, Bool.not_eq_true'] at hm
    have ihs := reMatchHere_no_meta ps cs hm.2
    simp [reMatchHere, litHere, hm.1, ihs]

/-- On patterns without the `.` metacharacter, `re.search` agrees with
literal contiguous substring containment. -/
theorem reSearch_no_meta : ∀ pat s : List Char,
    pat.all (fun c => !(c == '.')) = true →
    reSearch pat s = containsSubstrSpec pat s
  | pat, [], hm => by
    simp [reSearch, containsSubstrSpec, reMatchHere_no_meta pat [] hm]
  | pat, c :: cs, hm => by
    simp [reSearch, containsSubstrSpec, reMatchHere_no_meta pat (c :: cs) hm,
      reSearch_no_meta pat cs hm]

/-- A pattern with no special character at all in particular has no
`.`. -/
theorem literalPattern_no_dot (pat : String) (h : literalPattern pat = true) :
    pat.data.all (fun c => !(c == '.')) = true := by
  rw [literalPattern, List.all_eq_true] at h
  rw [List.all_eq_true]
  intro c hc
  have hs := h c hc
  revert hs
  cases hcd : c == '.' with
  | true =>
    have hce : c = '.' := by simpa using hcd
    subst hce
    intro hs
    exact absurd hs (by decide)
  | false =>
    intro _
    simp [hcd]

/-- A pattern with no special character is inside the modelled fragment
and compiles to the fragment search. -/
theorem literalPattern_compiles (pat : String) (h : literalPattern pat = true) :
    reCompile pat = ReResult.compiled fun z => reSearch pat.data z.data := by
  have hfrag : pat.data.all isFragmentChar = true := by
    rw [literalPattern, List.all_eq_true] at h
    rw [List.all_eq_true]
    intro c hc
    rw [isFragmentChar, h c hc]
    rfl
  rw [reCompile, if_pos hfrag]

/-- When the zipcode pattern compiles, the filter returns the rows kept
by the conjoined mask. -/
theorem applyFilters_compiled (p : Params) (m : String → Bool)
    (hm : reCompile p.selected_zipcode = ReResult.compiled m)
    (data : List Record) :
    applyFilters p data = FilterResult.ok (applyFiltersWith m p data) := by
  rw [applyFilters, hm]

/-! ### Claim theorems -/

/-- C1 counterexample: at the zipcode parameter `"["` — an invalid
regex — line 76 raises `re.error` ("unterminated character set")
before any row is tested, so the filter returns no record set at all,
refuting the claim for every parameter set. -/
theorem C1_counterexample :
    applyFilters pBracket [recA] = FilterResult.raises "unterminated character set" :=
  rfl

/-- C1 (amended): for every record set and every parameter set whose
zipcode pattern compiles to a matcher `m`, the filter returns exactly
the subset of input records satisfying all four predicates: the result
is a subset of the input, and a record is in the result if and only if
it is in the input and its unit count lies in the selected range, its
building type is among the selected types, its zipcode satisfies the
compiled zipcode predicate, and the vacancy predicate holds.  When the
zipcode pattern is an invalid regex the filter raises instead. -/
theorem C1_filter_exact (p : Params) (data : List Record) (m : String → Bool)
    (hm : reCompile p.selected_zipcode = ReResult.compiled m) :
    applyFilters p data = FilterResult.ok (applyFiltersWith m p data) ∧
    (∀ r ∈ applyFiltersWith m p data, r ∈ data) ∧
    (∀ r : Record, r ∈ applyFiltersWith m p data ↔
      r ∈ data ∧ unitsPred p r = true ∧ typePred p r = true ∧
        zipPred m r = true ∧ vacantPred p r = true) := by
  refine ⟨by rw [applyFilters, hm], ?_, ?_⟩
  · intro r hr
    exact (List.mem_filter.mp hr).1
  · intro r
    simp only [applyFiltersWith, List.mem_filter, rowMask, Bool.and_eq_true, and_assoc]

/-- Witness for C1: the amended statement instantiated at the literal
pattern `"336"` and a one-record input. -/
theorem C1_filter_exact_witness :
    applyFilters pZip [recA] = FilterResult.ok (applyFiltersWith mZip pZip [recA]) ∧
    (∀ r ∈ applyFiltersWith mZip pZip [recA], r ∈ [recA]) ∧
    (∀ r : Record, r ∈ applyFiltersWith mZip pZip [recA] ↔
      r ∈ [recA] ∧ unitsPred pZip r = true ∧ typePred pZip r = true ∧
        zipPred mZip r = true ∧ vacantPred pZip r = true) :=
  C1_filter_exact pZip [recA] mZip rfl

/-- C2 counterexample: at zipcode parameter `"021."` — a valid regex
containing the metacharacter `.` — the filter keeps a record whose
zipcode `"0219"` does NOT contain `"021."` as a literal contiguous
substring: the pandas default interprets the parameter as a regex
whose `.` matches the final `9`.  This refutes the claim that the
zipcode predicate holds iff the zipcode contains the parameter as a
substring with no character given special meaning. -/
theorem C2_counterexample :
    applyFilters pDot [recDot] = FilterResult.ok [recDot] ∧
    containsSubstrSpec "021.".data "0219".data = false :=
  ⟨rfl, rfl⟩

/-- C2 (amended): the zipcode parameter is interpreted as a regular
expression searched unanchored and case-sensitively (pandas
`str.contains` default `regex=True`); the empty parameter always
matches; and when the parameter contains no regex special character at
all it compiles, and its search coincides with literal, contiguous,
case-sensitive, unanchored substring containment. -/
theorem C2_zip_regex (p : Params) (r : Record)
    (hm : literalPattern p.selected_zipcode = true) :
    reCompile p.selected_zipcode
      = ReResult.compiled (fun z => reSearch p.selected_zipcode.data z.data) ∧
    reSearch "".data r.zipcode_str.data = true ∧
    reSearch p.selected_zipcode.data r.zipcode_str.data
      = containsSubstrSpec p.selected_zipcode.data r.zipcode_str.data :=
  ⟨literalPattern_compiles p.selected_zipcode hm,
   reSearch_nil r.zipcode_str.data,
   reSearch_no_meta _ _ (literalPattern_no_dot p.selected_zipcode hm)⟩

/-- Witness for C2: the amended statement instantiated at the concrete
metacharacter-free pattern `"336"` and record `recA`. -/
theorem C2_zip_regex_witness :
    reCompile pZip.selected_zipcode
      = ReResult.compiled (fun z => reSearch pZip.selected_zipcode.data z.data) ∧
    reSearch "".data recA.zipcode_str.data = true ∧
    reSearch pZip.selected_zipcode.data recA.zipcode_str.data
      = containsSubstrSpec pZip.selected_zipcode.data recA.zipcode_str.data :=
  C2_zip_regex pZip recA (by decide)

/-- C5 counterexample: with an empty building-type selection AND the
invalid zipcode pattern `"["`, the filter raises `re.error` (the mask's
conjuncts are evaluated eagerly) instead of returning the empty record
set the claim promises "regardless of other parameters". -/
theorem C5_counterexample :
    applyFilters pNoTypesBracket [recA]
      = FilterResult.raises "unterminated character set" ∧
    applyFilters pNoTypesBracket [recA] ≠ FilterResult.ok [] :=
  ⟨rfl, by decide⟩

/-- C5 (amended): whenever the building-type selection is empty and the
zipcode pattern compiles, the filter result is empty, regardless of the
remaining parameters and the input; with an invalid zipcode pattern the
filter raises instead. -/
theorem C5_empty_types (p : Params) (data : List Record) (m : String → Bool)
    (hm : reCompile p.selected_zipcode = ReResult.compiled m)
    (h : p.selected_building_types = []) :
    applyFilters p data = FilterResult.ok [] := by
  rw [applyFilters_compiled p m hm data]
  have he : applyFiltersWith m p data = [] := by
    rw [applyFiltersWith, List.filter_eq_nil_iff]
    intro r _
    simp [rowMask, typePred, h]
  rw [he]

/-- Witness for C5: the empty-selection parameter set (with the
compiling empty zipcode pattern) on a nonempty input yields the empty
result. -/
theorem C5_empty_types_witness :
    applyFilters pNoTypes [recA] = FilterResult.ok [] :=
  C5_empty_types pNoTypes [recA] mEmpty rfl rfl

/-- C6: the unit-range bounds are inclusive — a record of the input
whose unit count equals exactly the lower or exactly the upper bound of
the selected range, and which satisfies the other three predicates
(with the zipcode pattern compiled to `m`), is in the filter result. -/
theorem C6_inclusive_bounds (p : Params) (data : List Record) (r : Record)
    (m : String → Bool)
    (hcomp : reCompile p.selected_zipcode = ReResult.compiled m)
    (hmem : r ∈ data)
    (hrange : p.selected_units.1 ≤ p.selected_units.2)
    (hedge : r.tUNITS = p.selected_units.1 ∨ r.tUNITS = p.selected_units.2)
    (ht : typePred p r = true) (hz : zipPred m r = true)
    (hv : vacantPred p r = true) :
    applyFilters p data = FilterResult.ok (applyFiltersWith m p data) ∧
    r ∈ applyFiltersWith m p data := by
  refine ⟨by rw [applyFilters, hcomp], ?_⟩
  rw [applyFiltersWith, List.mem_filter]
  refine ⟨hmem, ?_⟩
  have hu : unitsPred p r = true := by
    rw [unitsPred]
    rcases hedge with h | h <;> rw [h] <;> simp [hrange]
  simp [rowMask, hu, ht, hz, hv]

/-- Witness for C6: `recA` has unit count exactly at the lower bound of
`pEdge` and passes the other predicates, so it is kept. -/
theorem C6_inclusive_bounds_witness :
    applyFilters pEdge [recA] = FilterResult.ok (applyFiltersWith mEmpty pEdge [recA]) ∧
    recA ∈ applyFiltersWith mEmpty pEdge [recA] :=
  C6_inclusive_bounds pEdge [recA] recA mEmpty rfl (List.mem_singleton.mpr rfl)
    (by decide) (Or.inl (by decide)) (by decide) (by decide) (by decide)

/-- C7 counterexample: at the invalid zipcode pattern `"["` the first
filter application raises `re.error` and yields no output set at all,
so there is nothing to run the filter on a second time — refuting
idempotence as claimed for every parameter set. -/
theorem C7_counterexample :
    applyFilters pBracket [recB] = FilterResult.raises "unterminated character set" :=
  rfl

/-- C7 (amended): for every parameter set whose zipcode pattern
compiles, the filter produces an output set, and applying the filter to
that output with the same parameters yields the same list of records;
with an invalid zipcode pattern the filter raises and produces no
output set to re-filter. -/
theorem C7_filter_idempotent (p : Params) (data : List Record) (m : String → Bool)
    (hm : reCompile p.selected_zipcode = ReResult.compiled m) :
    applyFilters p data = FilterResult.ok (applyFiltersWith m p data) ∧
    applyFilters p (applyFiltersWith m p data)
      = FilterResult.ok (applyFiltersWith m p data) := by
  refine ⟨applyFilters_compiled p m hm data, ?_⟩
  rw [applyFilters_compiled p m hm (applyFiltersWith m p data)]
  have hi : applyFiltersWith m p (applyFiltersWith m p data)
      = applyFiltersWith m p data := by
    simp [applyFiltersWith, List.filter_filter]
  rw [hi]

/-- Witness for C7: idempotence discharged at the literal pattern
`"336"` and a one-record input. -/
theorem C7_filter_idempotent_witness :
    applyFilters pZip [recA] = FilterResult.ok (applyFiltersWith mZip pZip [recA]) ∧
    applyFilters pZip (applyFiltersWith mZip pZip [recA])
      = FilterResult.ok (applyFiltersWith mZip pZip [recA]) :=
  C7_filter_idempotent pZip [recA] mZip rfl

/-- C9 counterexample: the claim promises an empty output set with no
error on an empty input for every parameter set, but at the invalid
zipcode pattern `"["` line 76 raises `re.error` even on the empty
record set. -/
theorem C9_counterexample :
    applyFilters pBracket [] = FilterResult.raises "unterminated character set" ∧
    applyFilters pBracket [] ≠ FilterResult.ok [] :=
  ⟨rfl, by decide⟩

/-- C9 (amended): the filter mutates nothing; whenever the zipcode
pattern compiles, every input yields an output that is a sublist of the
untouched input (no record mutated, invented, or reordered) and an
empty input yields an empty output with no error; an invalid zipcode
pattern raises `re.error` even on an empty input. -/
theorem C9_filter_pure (p : Params) (m : String → Bool)
    (hm : reCompile p.selected_zipcode = ReResult.compiled m) :
    applyFilters p [] = FilterResult.ok [] ∧
    ∀ data : List Record,
      applyFilters p data = FilterResult.ok (applyFiltersWith m p data) ∧
      List.Sublist (applyFiltersWith m p data) data := by
  have hdisp : ∀ d : List Record,
      applyFilters p d = FilterResult.ok (applyFiltersWith m p d) := by
    intro d
    rw [applyFilters, hm]
  exact ⟨hdisp [], fun data => ⟨hdisp data, List.filter_sublist data⟩⟩

/-- Witness for C9: purity discharged at the literal pattern `"336"`,
on the empty input and a one-record input. -/
theorem C9_filter_pure_witness :
    applyFilters pZip [] = FilterResult.ok [] ∧
    applyFilters pZip [recA] = FilterResult.ok (applyFiltersWith mZip pZip [recA]) ∧
    List.Sublist (applyFiltersWith mZip pZip [recA]) [recA] :=
  ⟨(C9_filter_pure pZip mZip rfl).1,
   ((C9_filter_pure pZip mZip rfl).2 [recA]).1,
   ((C9_filter_pure pZip mZip rfl).2 [recA]).2⟩

/-- C4 counterexample: when the settings file `.env` exists but the
`MAPBOX_TOKEN` variable is absent from the environment after loading
it, the token lookup raises `KeyError` instead of falling back — so
absence of the token variable IS surfaced as an error, refuting the
claim that it never is. -/
theorem C4_counterexample :
    loadToken true (fun _ => none) = Except.error "KeyError: MAPBOX_TOKEN" := rfl

/-- C4 (amended): absence of the settings file is never surfaced as an
error — the token is absent and the render falls back to the token-free
tile provider; the truthiness test of line 130 sends an empty-string
token to the token-free provider as well; when the settings file is
present, a `MAPBOX_TOKEN` variable set to a non-empty value selects the
token-bearing style, but an absent variable raises a lookup error
instead of falling back. -/
theorem C4_token_fallback (environ : String → Option String) :
    loadToken false environ = Except.ok none ∧
    mapboxStyle none = "open-street-map" ∧
    mapboxStyle (some "") = "open-street-map" ∧
    (∀ t : String, environ "MAPBOX_TOKEN" = some t →
      loadToken true environ = Except.ok (some t) ∧
      (t.isEmpty = false → mapboxStyle (some t) = "basic")) ∧
    (environ "MAPBOX_TOKEN" = none →
      loadToken true environ = Except.error "KeyError: MAPBOX_TOKEN") := by
  refine ⟨rfl, rfl, rfl, ?_, ?_⟩
  · intro t ht
    refine ⟨by simp [loadToken, ht], ?_⟩
    intro hne
    simp [mapboxStyle, hne]
  · intro h
    simp [loadToken, h]

/-- Witness for C4: the amended statement discharged at an empty
environment and at an environment binding the token to a non-empty
value. -/
theorem C4_token_fallback_witness :
    (loadToken false (fun _ => none) = Except.ok none ∧
      mapboxStyle none = "open-street-map" ∧
      mapboxStyle (some "") = "open-street-map" ∧
      loadToken true (fun _ => none) = Except.error "KeyError: MAPBOX_TOKEN") ∧
    (loadToken true (fun _ => some "tok") = Except.ok (some "tok") ∧
      mapboxStyle (some "tok") = "basic") :=
  ⟨⟨(C4_token_fallback (fun _ => none)).1,
    (C4_token_fallback (fun _ => none)).2.1,
    (C4_token_fallback (fun _ => none)).2.2.1,
    (C4_token_fallback (fun _ => none)).2.2.2.2 rfl⟩,
   ⟨((C4_token_fallback (fun _ => some "tok")).2.2.2.1 "tok" rfl).1,
    ((C4_token_fallback (fun _ => some "tok")).2.2.2.1 "tok" rfl).2 rfl⟩⟩

/-- C8: the unit-count distribution pairs each exactly-equal `tUNITS`
value occurring in the filtered rows with the number of rows having
that exact value, and lists the values in (strictly) ascending order. -/
theorem C8_unit_distribution (filtered : List Record) :
    (unit_distribution filtered).Pairwise (fun a b => a.1 < b.1) ∧
    ∀ v : Rat, ∀ c : Nat, ((v, c) ∈ unit_distribution filtered ↔
      ((∃ r ∈ filtered, r.tUNITS = v) ∧ c = countUnits filtered v)) := by
  have hperm := List.perm_insertionSort (fun a b : Rat => a ≤ b) (unitValues filtered)
  constructor
  · rw [unit_distribution, List.pairwise_map]
    have hsorted : List.Sorted (· ≤ ·)
        (List.insertionSort (fun a b : Rat => a ≤ b) (unitValues filtered)) :=
      List.sorted_insertionSort _ _
    have hnodup :
        (List.insertionSort (fun a b : Rat => a ≤ b) (unitValues filtered)).Nodup :=
      hperm.nodup_iff.mpr (List.nodup_dedup _)
    exact hsorted.lt_of_le hnodup
  · intro v c
    rw [unit_distribution, List.mem_map]
    constructor
    · rintro ⟨k, hk, hkeq⟩
      rw [Prod.mk.injEq] at hkeq
      obtain ⟨h1, h2⟩ := hkeq
      subst h1
      have hkv : k ∈ unitValues filtered := hperm.mem_iff.mp hk
      rw [unitValues, List.mem_dedup, List.mem_map] at hkv
      obtain ⟨r, hr, hrk⟩ := hkv
      exact ⟨⟨r, hr, hrk⟩, h2.symm⟩
    · rintro ⟨⟨r, hr, hrv⟩, hc⟩
      refine ⟨v, ?_, by rw [hc]⟩
      apply hperm.mem_iff.mpr
      rw [unitValues, List.mem_dedup, List.mem_map]
      exact ⟨r, hr, hrv⟩

/-- Selecting rows at in-range positions is the same as reading the
rows off at those positions. -/
theorem sampleRows_eq_pmap (df : List Record) :
    ∀ (idxs : List Nat) (hr : ∀ i ∈ idxs, i < df.length),
      sampleRows df idxs
        = (idxs.pmap (fun i h => (⟨i, h⟩ : Fin df.length)) hr).map df.get
  | [], _ => rfl
  | i :: is, hr => by
    have hi : i < df.length := hr i (List.mem_cons_self i is)
    have ih := sampleRows_eq_pmap df is fun a ha => hr a (List.mem_cons_of_mem i ha)
    rw [sampleRows] at ih ⊢
    rw [List.filterMap_cons_some (List.getElem?_eq_getElem hi), List.pmap,
      List.map_cons, ih]
    rfl

/-- Selecting rows at `n` in-range positions yields `n` rows. -/
theorem sampleRows_length (df : List Record) (idxs : List Nat)
    (hr : ∀ i ∈ idxs, i < df.length) :
    (sampleRows df idxs).length = idxs.length := by
  rw [sampleRows_eq_pmap df idxs hr, List.length_map, List.length_pmap]

/-- Every selected row is a row of the source set. -/
theorem sampleRows_mem (df : List Record) (idxs : List Nat) (r : Record)
    (h : r ∈ sampleRows df idxs) : r ∈ df := by
  obtain ⟨i, _, hi⟩ := List.mem_filterMap.mp h
  exact List.getElem?_mem hi

/-- Mapping preserves sub-permutations. -/
theorem subperm_map {α β : Type} (f : α → β) {l₁ l₂ : List α}
    (h : List.Subperm l₁ l₂) : List.Subperm (l₁.map f) (l₂.map f) := by
  obtain ⟨l, hp, hs⟩ := h
  exact ⟨l.map f, hp.map f, hs.map f⟩

/-- Selecting rows at pairwise-distinct in-range positions uses no row
of the source more often than it occurs there: the selection is a
sub-permutation of the source. -/
theorem sampleRows_subperm (df : List Record) (idxs : List Nat)
    (hnd : idxs.Nodup) (hr : ∀ i ∈ idxs, i < df.length) :
    List.Subperm (sampleRows df idxs) df := by
  rw [sampleRows_eq_pmap df idxs hr]
  have hfnd : (idxs.pmap (fun i h => (⟨i, h⟩ : Fin df.length)) hr).Nodup :=
    hnd.pmap fun a ha b hb hab => congrArg Fin.val hab
  have h1 : List.Subperm (idxs.pmap (fun i h => (⟨i, h⟩ : Fin df.length)) hr)
      (List.finRange df.length) :=
    List.subperm_of_subset hfnd fun x _ => List.mem_finRange x
  have h2 := subperm_map df.get h1
  rwa [← List.ofFn_eq_map, List.ofFn_get] at h2

/-- C3: when the filtered set has more than 1000 records, the map
displays exactly 1000 records, each a member of the filtered set, while
the "Number of buildings" text still shows the pre-cap filtered count;
when the filtered set has at most 1000 records, the map displays the
whole filtered set with no warning. -/
theorem C3_display_cap (filtered : List Record) (idxs : List Nat) :
    (filtered.length > 1000 → idxs.length = 1000 →
      (∀ i ∈ idxs, i < filtered.length) →
      ((renderMap filtered idxs).displayed.length = 1000 ∧
        (∀ r ∈ (renderMap filtered idxs).displayed, r ∈ filtered) ∧
        (renderMap filtered idxs).count_text = filtered.length)) ∧
    (filtered.length ≤ 1000 →
      ((renderMap filtered idxs).displayed = filtered ∧
        (renderMap filtered idxs).warned = false ∧
        (renderMap filtered idxs).count_text = filtered.length)) := by
  constructor
  · intro hcap hlen hr
    have hd : renderMap filtered idxs
        = { count_text := filtered.length, warned := true,
            displayed := sampleRows filtered idxs } := by
      rw [renderMap, if_pos hcap]
    rw [hd]
    exact ⟨by rw [sampleRows_length filtered idxs hr, hlen],
      fun r hrr => sampleRows_mem filtered idxs r hrr, rfl⟩
  · intro hle
    have hd : renderMap filtered idxs
        = { count_text := filtered.length, warned := false, displayed := filtered } := by
      rw [renderMap, if_neg (not_lt.mpr hle)]
    rw [hd]
    exact ⟨rfl, rfl, rfl⟩

/-- Witness for C3: both branches discharged — a 1001-row filtered set
with the first 1000 positions sampled, and a 1-row filtered set. -/
theorem C3_display_cap_witness :
    ((renderMap dfBig (List.range 1000)).displayed.length = 1000 ∧
      (∀ r ∈ (renderMap dfBig (List.range 1000)).displayed, r ∈ dfBig) ∧
      (renderMap dfBig (List.range 1000)).count_text = dfBig.length) ∧
    ((renderMap [recA] (List.range 1000)).displayed = [recA] ∧
      (renderMap [recA] (List.range 1000)).warned = false ∧
      (renderMap [recA] (List.range 1000)).count_text = [recA].length) :=
  ⟨(C3_display_cap dfBig (List.range 1000)).1
      (by simp only [dfBig, List.length_replicate]; omega)
      (List.length_range 1000)
      (by
        intro i hi
        have hik := List.mem_range.mp hi
        simp only [dfBig, List.length_replicate]
        omega),
   (C3_display_cap [recA] (List.range 1000)).2 (by simp)⟩

/-- C10: whenever the display cap fires, the 1000 displayed records are
drawn without replacement — the displayed list is a sub-permutation of
the filtered set (no row of the filtered set is plotted more often than
it occurs there) and has exactly 1000 entries. -/
theorem C10_sample_distinct (filtered : List Record) (idxs : List Nat)
    (hnd : idxs.Nodup) (hlen : idxs.length = 1000)
    (hr : ∀ i ∈ idxs, i < filtered.length)
    (hcap : filtered.length > 1000) :
    (renderMap filtered idxs).displayed.length = 1000 ∧
    List.Subperm (renderMap filtered idxs).displayed filtered := by
  have hd : renderMap filtered idxs
      = { count_text := filtered.length, warned := true,
          displayed := sampleRows filtered idxs } := by
    rw [renderMap, if_pos hcap]
  rw [hd]
  exact ⟨by rw [sampleRows_length filtered idxs hr, hlen],
    sampleRows_subperm filtered idxs hnd hr⟩

/-- Witness for C10: the 1001-row filtered set with the first 1000
positions sampled. -/
theorem C10_sample_distinct_witness :
    (renderMap dfBig (List.range 1000)).displayed.length = 1000 ∧
    List.Subperm (renderMap dfBig (List.range 1000)).displayed dfBig :=
  C10_sample_distinct dfBig (List.range 1000) (List.nodup_range 1000)
    (List.length_range 1000)
    (by
      intro i hi
      have hik := List.mem_range.mp hi
      simp only [dfBig, List.length_replicate]
      omega)
    (by simp only [dfBig, List.length_replicate]; omega)

end EpicDashboard
